import Mathlib

/-!
Verification of the multi-backend similarity-search orchestrator of the
dpais-chat-reference-app backend.

The development is a shallow embedding of
  backend/app/services/vector_stores.py  (VectorStoreService.search,
    VectorStoreService._direct_pgvector_search, VectorStoreService._search_store),
  backend/app/services/embeddings.py     (EmbeddingsService.embed_query), and
  backend/app/routers/vector_stores.py   (search_documents).

Modelling conventions:
  - Python floats are modelled by exact rationals; the float nan value is
    modelled by the `none` constructor of an `Option ℚ` similarity field
    (the router checks math.isnan).  Stored metadata comes from JSON / JSONB
    columns, which cannot encode nan, so a stored similarity value is a plain
    rational.
  - External collaborators (the embedding endpoint, the pgvector table with
    its <=> cosine-distance operator, and the LangChain store objects held in
    self.vector_stores) are fields of an `Env` record.  A failing call is an
    `Except.error`.
  - uuid.uuid4() is modelled by a fresh-identifier supply: a counter threaded
    through the computation, rendered by `mkUuid`, which is injective and
    never returns a value already produced for a smaller counter.  Python
    evaluates the default argument of dict.get eagerly, so two identifiers
    are drawn per processed record whether or not they are used; the model
    reproduces this.
  - Python list.sort(key=..., reverse=True) is a stable descending sort; it
    is modelled by List.insertionSort with the reflexive total descending
    order on the sort key, which is also stable (proved below); a stable
    sort by a total preorder is unique, so this coincides with the source
    sort on every input.
  - The ORDER BY ... DESC LIMIT k part of the direct SQL query is modelled
    the same way; PostgreSQL rejects a negative LIMIT with an error, which
    the model reproduces.
-/

/-- An embedding vector (Python list of floats). -/
abbrev Vec := List ℚ

/-- The metadata JSON object attached to a stored row or returned document,
projected onto the keys the service reads.  A `none` field means the key is
absent from the JSON object. -/
structure RowMeta where
  documentId : Option String := none
  documentName : Option String := none
  chunkId : Option String := none
  chunkIndex : Option Int := none
  tags : Option (List String) := none
  collection : Option String := none
  similarity : Option ℚ := none
deriving DecidableEq, Repr

/-- One row of the pgvector table: (content, metadata JSON, embedding vector). -/
structure PgRow where
  content : String
  metadata : RowMeta
  embedding : Vec
deriving DecidableEq, Repr

/-- A LangChain Document as returned by store.similarity_search. -/
structure GenericDoc where
  page_content : String
  metadata : RowMeta
deriving DecidableEq, Repr

/-- models/schema.py DocumentMetadata. -/
structure DocumentMetadata where
  documentId : String
  documentName : String
  chunkId : String
  chunkIndex : Option Int
  tags : List String
deriving DecidableEq, Repr

/-- models/schema.py DocumentResponse.  The similarity field is an Option:
`some q` is the float q, `none` is float nan (see the header comment). -/
structure DocumentResponse where
  content : String
  metadata : DocumentMetadata
  source_id : String
  source_name : String
  source_type : String
  similarity : Option ℚ
deriving DecidableEq, Repr

/-- The info dict registered for a store in self.vector_stores. -/
structure StoreInfo where
  id : String
  name : String
  type : String
deriving DecidableEq, Repr

/-- The filter dictionary passed to store.similarity_search:
the collection field models the "collection": ("$in": ids) entry and the
tags field the "tags": ("$in": tags) entry; `none` means the key is absent. -/
structure FilterDict where
  collection : Option (List String)
  tags : Option (List String)
deriving DecidableEq, Repr

/-- One entry of self.vector_stores: the info dict plus the behaviour of the
external store object.  similarity_search embeds the query itself and queries
its backend; any exception it raises is an `Except.error`. -/
structure StoreData where
  info : StoreInfo
  similarity_search : String → Int → Option FilterDict → Except String (List GenericDoc)

/-- The external world of one search call: configuration flags and the
external collaborators (embedding endpoint, pgvector table and its cosine
distance operator, LangChain store objects), all fixed for the call. -/
structure Env where
  ENABLE_PGVECTOR : Bool
  /-- The pgvector table reached by the direct psycopg2 connection; an
  `Except.error` models a connection or query failure. -/
  pgTable : Except String (List PgRow)
  /-- The pgvector <=> cosine-distance operator (external to the service). -/
  cosDist : Vec → Vec → ℚ
  /-- EmbeddingsService.embed_query: the external embedding endpoint. -/
  embed : String → Except String Vec
  /-- self.vector_stores, an insertion-ordered dict of store id to store. -/
  vector_stores : List (String × StoreData)

/-- The fresh-identifier supply standing in for str(uuid.uuid4()).  Counter n
is rendered as a string of n+1 copies of the letter u, which makes
injectivity and nonemptiness elementary. -/
def mkUuid (n : Nat) : String :=
  String.mk (List.replicate (n + 1) 'u')

/-- Python truthiness of an optional list argument: None and the empty list
are falsy (the source guards every filter with a bare `if value:`). -/
def pyTruthy : Option (List String) → Bool
  | some (_ :: _) => true
  | _ => false

/-- Python slicing results[:k]: for k >= 0 the first k elements, for k < 0
all but the last |k| elements (empty when |k| exceeds the length). -/
def pySlice {α : Type} (l : List α) (k : Int) : List α :=
  if 0 ≤ k then l.take k.toNat
  else l.take ((l.length : Int) + k).toNat

/-- Lines 414-421 and 550-557 of vector_stores.py (identical in both paths):
build the DocumentMetadata from the record metadata, with fresh identifiers
u1/u2 as the dict.get defaults for documentId/chunkId. -/
def buildDocMetadata (m : RowMeta) (u1 u2 : String) : DocumentMetadata :=
  { documentId := m.documentId.getD u1
    documentName := m.documentName.getD "Unknown Document"
    chunkId := m.chunkId.getD u2
    chunkIndex := m.chunkIndex
    tags := m.tags.getD [] }

/-- Map a record list to responses, drawing two fresh identifiers per record
(dict.get evaluates its default eagerly, so the supply advances by two per
record even when the stored keys are present). -/
def processWithUuids {α : Type} (f : α → String → String → DocumentResponse) :
    Nat → List α → List DocumentResponse × Nat
  | c, [] => ([], c)
  | c, x :: xs =>
    let r := f x (mkUuid c) (mkUuid (c + 1))
    let (rest, c') := processWithUuids f (c + 2) xs
    (r :: rest, c')

/-- The WHERE clause of the direct SQL query, as a predicate on a row
metadata object: collection filter (metadata->>collection IN (...)) ANDed
with the tag filter (OR of metadata->tags ? tag); an absent metadata key
makes the corresponding SQL comparison NULL, hence not a match. -/
def rowMatchesWhere (collection_ids tags : Option (List String)) (m : RowMeta) : Bool :=
  (if pyTruthy collection_ids then
      match m.collection with
      | some c => (collection_ids.getD []).contains c
      | none => false
    else true)
  &&
  (if pyTruthy tags then
      match m.tags with
      | some ts => (tags.getD []).any (fun t => ts.contains t)
      | none => false
    else true)

/-- The DocumentResponse built for one row of the direct SQL result
(lines 550-567 of vector_stores.py). -/
def mkPgResponse (r : PgRow) (sim : ℚ) (u1 u2 : String) : DocumentResponse :=
  { content := r.content
    metadata := buildDocMetadata r.metadata u1 u2
    source_id := "pgvector-1"
    source_name := "PostgreSQL Vector DB"
    source_type := "pgvector"
    similarity := some sim }

/-- Descending order on the scored rows of the SQL result. -/
def scoredRowGe (a b : PgRow × ℚ) : Prop := b.2 ≤ a.2

instance : DecidableRel scoredRowGe := fun a b =>
  inferInstanceAs (Decidable (b.2 ≤ a.2))

instance : IsTotal (PgRow × ℚ) scoredRowGe := ⟨fun a b => le_total b.2 a.2⟩

instance : IsTrans (PgRow × ℚ) scoredRowGe :=
  ⟨fun _ _ _ h1 h2 => le_trans h2 h1⟩

/-- The scored row set of the direct SQL query: the rows passing the WHERE
clause, each paired with its computed similarity 1 - cosine distance. -/
def pgScoredRows (env : Env) (emb : Vec) (collection_ids tags : Option (List String))
    (rows : List PgRow) : List (PgRow × ℚ) :=
  rows.filterMap (fun r =>
    if rowMatchesWhere collection_ids tags r.metadata then
      some (r, 1 - env.cosDist emb r.embedding)
    else none)

/-- ORDER BY similarity DESC LIMIT k of the direct SQL query (k here already
checked nonnegative). -/
def pgTopRows (env : Env) (emb : Vec) (collection_ids tags : Option (List String))
    (rows : List PgRow) (k : Int) : List (PgRow × ℚ) :=
  (List.insertionSort scoredRowGe (pgScoredRows env emb collection_ids tags rows)).take k.toNat

/-- VectorStoreService._direct_pgvector_search: embed the query, connect,
run the SQL query (scoring similarity as 1 - cosine distance, filtering,
ordering by similarity descending, limiting to k), and map the rows to
responses.  Any failure is an `Except.error` (the method re-raises). -/
def directPgvectorSearch (env : Env) (query : String) (k : Int)
    (collection_ids tags : Option (List String)) (c : Nat) :
    Except String (List DocumentResponse × Nat) :=
  match env.embed query with
  | .error e => .error e
  | .ok emb =>
    match env.pgTable with
    | .error e => .error e
    | .ok rows =>
      if k < 0 then .error "LIMIT must not be negative"
      else .ok (processWithUuids (fun rc u1 u2 => mkPgResponse rc.1 rc.2 u1 u2) c
        (pgTopRows env emb collection_ids tags rows k))

/-- A single SQL quote character. -/
def sqlQ : String := "\x27"

/-- Quote a value the way the source interpolates it into the SQL text. -/
def sqlQuote (s : String) : String := sqlQ ++ s ++ sqlQ

/-- The SQL text composed by _direct_pgvector_search (lines 483-524),
whitespace condensed: the filter values are concatenated straight into the
query text and the query is executed without bound parameters (the
sql_params list the source builds is discarded). -/
def buildPgSql (tableName vectorStr : String)
    (collection_ids tags : Option (List String)) (k : Int) : String :=
  let base := "SELECT content, metadata, 1 - (embedding <=> "
    ++ sqlQ ++ vectorStr ++ sqlQ ++ "::vector) AS similarity FROM " ++ tableName
  let collectionClauses : List String :=
    if pyTruthy collection_ids then
      ["metadata->>" ++ sqlQuote "collection" ++ " IN ("
        ++ String.intercalate ", " ((collection_ids.getD []).map sqlQuote) ++ ")"]
    else []
  let tagClauses : List String :=
    if pyTruthy tags then
      ["(" ++ String.intercalate " OR "
          ((tags.getD []).map (fun t =>
            "metadata->" ++ sqlQuote "tags" ++ " ? " ++ sqlQuote t)) ++ ")"]
    else []
  let whereClauses := collectionClauses ++ tagClauses
  let withWhere :=
    if whereClauses.isEmpty then base
    else base ++ " WHERE " ++ String.intercalate " AND " whereClauses
  withWhere ++ " ORDER BY similarity DESC LIMIT " ++ toString k

/-- The filter dict built in VectorStoreService.search (lines 392-405):
entries only for truthy filters, and None when no filter is given. -/
def buildFilterDict (collection_ids tags : Option (List String)) : Option FilterDict :=
  if pyTruthy collection_ids || pyTruthy tags then
    some { collection := if pyTruthy collection_ids then some (collection_ids.getD []) else none
           tags := if pyTruthy tags then some (tags.getD []) else none }
  else none

/-- stores_to_search (lines 373-380): with a truthy backend_ids list, the
known ids in request order with duplicates collapsed; otherwise every store. -/
def storesToSearch (env : Env) (backend_ids : Option (List String)) :
    List (String × StoreData) :=
  if pyTruthy backend_ids then
    (backend_ids.getD []).foldl (fun acc sid =>
      match env.vector_stores.lookup sid with
      | some sd => if (acc.lookup sid).isSome then acc else acc ++ [(sid, sd)]
      | none => acc) []
  else env.vector_stores

/-- VectorStoreService._search_store: delegate to the store object and turn
any raised error into an empty document list. -/
def searchStore (sd : StoreData) (query : String) (k : Int)
    (fd : Option FilterDict) : List GenericDoc :=
  match sd.similarity_search query k fd with
  | .ok docs => docs
  | .error _ => []

/-- The DocumentResponse built for one fallback document
(lines 411-431 of vector_stores.py): the similarity is read from the
document metadata with default 0.0. -/
def mkStoreResponse (store_id : String) (info : StoreInfo) (d : GenericDoc)
    (u1 u2 : String) : DocumentResponse :=
  { content := d.page_content
    metadata := buildDocMetadata d.metadata u1 u2
    source_id := store_id
    source_name := info.name
    source_type := info.type
    similarity := some (d.metadata.similarity.getD 0) }

/-- The per-store loop of VectorStoreService.search (lines 387-435): for each
store, search it (errors became empty lists in searchStore; the surrounding
try/except of the loop has nothing left to catch in the model, since
formatting well-typed records cannot raise) and append the formatted
responses. -/
def collectResults (env : Env) (query : String) (k : Int) (fd : Option FilterDict) :
    Nat → List (String × StoreData) → List DocumentResponse × Nat
  | c, [] => ([], c)
  | c, (sid, sd) :: rest =>
    let docs := searchStore sd query k fd
    let (rs, c1) := processWithUuids (mkStoreResponse sid sd.info) c docs
    let (rest', c2) := collectResults env query k fd c1 rest
    (rs ++ rest', c2)

/-- The sort key of the final merge (x.similarity); every similarity the
service constructs is a number, see search_similarity_isSome below. -/
def simKey (r : DocumentResponse) : ℚ := r.similarity.getD 0

/-- Descending order on responses: the relation of the stable merge sort. -/
def simGe (a b : DocumentResponse) : Prop := simKey b ≤ simKey a

instance : DecidableRel simGe := fun a b =>
  inferInstanceAs (Decidable (simKey b ≤ simKey a))

instance : IsTotal DocumentResponse simGe := ⟨fun a b => le_total (simKey b) (simKey a)⟩

instance : IsTrans DocumentResponse simGe :=
  ⟨fun _ _ _ h1 h2 => le_trans h2 h1⟩

/-- The merge step of the fallback path (lines 437-441): sort the collected
responses by similarity descending with the stable sort and slice to k. -/
def fallbackMerge (env : Env) (query : String) (k : Int)
    (backend_ids collection_ids tags : Option (List String)) (c1 : Nat) :
    List DocumentResponse × Nat :=
  (pySlice (List.insertionSort simGe
      (collectResults env query k (buildFilterDict collection_ids tags) c1
        (storesToSearch env backend_ids)).1) k,
   (collectResults env query k (buildFilterDict collection_ids tags) c1
      (storesToSearch env backend_ids)).2)

/-- The generic fallback part of VectorStoreService.search (lines 373-441):
an empty store selection returns the empty result list, otherwise every
selected store is searched and the results merged. -/
def searchFallback (env : Env) (query : String) (k : Int)
    (backend_ids collection_ids tags : Option (List String)) (c1 : Nat) :
    Except String (List DocumentResponse × Nat) :=
  if (storesToSearch env backend_ids).isEmpty then .ok ([], c1)
  else .ok (fallbackMerge env query k backend_ids collection_ids tags c1)

/-- VectorStoreService.search (lines 339-441).  The fast path runs when
pgvector is enabled and backend_ids is falsy or mentions pgvector-1; a
non-empty fast-path result is returned directly; on a fast-path error or
empty result the generic fallback runs. -/
def search (env : Env) (query : String) (k : Int)
    (backend_ids collection_ids tags : Option (List String)) (c : Nat) :
    Except String (List DocumentResponse × Nat) :=
  if env.ENABLE_PGVECTOR
      && (!pyTruthy backend_ids || (backend_ids.getD []).contains "pgvector-1") then
    match directPgvectorSearch env query k collection_ids tags c with
    | .ok r =>
      if r.1.isEmpty then searchFallback env query k backend_ids collection_ids tags r.2
      else .ok r
    | .error _ => searchFallback env query k backend_ids collection_ids tags c
  else searchFallback env query k backend_ids collection_ids tags c

/-- Lines 60-64 of routers/vector_stores.py: replace a None or nan
similarity by 0.0. -/
def sanitizeResponse (r : DocumentResponse) : DocumentResponse :=
  match r.similarity with
  | none => { r with similarity := some 0 }
  | some _ => r

/-- routers/vector_stores.py search_documents: call the service and clean
nan similarity values from the results before returning them. -/
def search_documents (env : Env) (query : String) (k : Int)
    (backend_ids collection_ids tags : Option (List String)) (c : Nat) :
    Except String (List DocumentResponse × Nat) :=
  match search env query k backend_ids collection_ids tags c with
  | .error e => .error e
  | .ok (rs, c') => .ok (rs.map sanitizeResponse, c')

/-! ### Properties of the fresh-identifier supply -/

theorem mkUuid_injective : Function.Injective mkUuid := by
  intro m n h
  unfold mkUuid at h
  injection h with h'
  have hlen := congrArg List.length h'
  simp at hlen
  exact hlen

theorem mkUuid_ne_empty (n : Nat) : mkUuid n ≠ "" := by
  intro h
  have hlen := congrArg String.length h
  have h1 : (mkUuid n).length = n + 1 := by
    unfold mkUuid
    show (List.replicate (n + 1) 'u').length = n + 1
    simp
  rw [h1] at hlen
  simp at hlen

/-! ### Properties of the record-to-response processor -/

theorem processWithUuids_snd {α : Type} (f : α → String → String → DocumentResponse)
    (c : Nat) (xs : List α) :
    (processWithUuids f c xs).2 = c + 2 * xs.length := by
  induction xs generalizing c with
  | nil => simp [processWithUuids]
  | cons x xs ih =>
    simp only [processWithUuids, List.length_cons]
    rw [ih]
    ring

theorem processWithUuids_length {α : Type} (f : α → String → String → DocumentResponse)
    (c : Nat) (xs : List α) :
    (processWithUuids f c xs).1.length = xs.length := by
  induction xs generalizing c with
  | nil => simp [processWithUuids]
  | cons x xs ih => simp [processWithUuids, ih]

theorem processWithUuids_get? {α : Type} (f : α → String → String → DocumentResponse)
    (c : Nat) (xs : List α) (i : Nat) :
    (processWithUuids f c xs).1.get? i =
      (xs.get? i).map (fun x => f x (mkUuid (c + 2 * i)) (mkUuid (c + 2 * i + 1))) := by
  induction xs generalizing c i with
  | nil => simp [processWithUuids]
  | cons x xs ih =>
    cases i with
    | zero => simp [processWithUuids]
    | succ j =>
      simp only [processWithUuids, List.get?_cons_succ]
      rw [ih]
      have h1 : c + 2 + 2 * j = c + 2 * (j + 1) := by ring
      rw [h1]

theorem processWithUuids_mem {α : Type} {f : α → String → String → DocumentResponse}
    {c : Nat} {xs : List α} {r : DocumentResponse}
    (h : r ∈ (processWithUuids f c xs).1) :
    ∃ x ∈ xs, ∃ u1 u2, r = f x u1 u2 := by
  induction xs generalizing c with
  | nil => simp [processWithUuids] at h
  | cons x xs ih =>
    simp only [processWithUuids, List.mem_cons] at h
    rcases h with h | h
    · exact ⟨x, List.mem_cons_self x xs, mkUuid c, mkUuid (c + 1), h⟩
    · obtain ⟨y, hy, u1, u2, hr⟩ := ih h
      exact ⟨y, List.mem_cons_of_mem x hy, u1, u2, hr⟩

theorem processWithUuids_pairwise {α : Type} {R : α → α → Prop}
    {S : DocumentResponse → DocumentResponse → Prop}
    {f : α → String → String → DocumentResponse} {xs : List α}
    (hf : ∀ x y u1 u2 u3 u4, R x y → S (f x u1 u2) (f y u3 u4))
    (h : xs.Pairwise R) (c : Nat) :
    (processWithUuids f c xs).1.Pairwise S := by
  induction xs generalizing c with
  | nil => simp [processWithUuids]
  | cons x xs ih =>
    rcases List.pairwise_cons.mp h with ⟨hx, hxs⟩
    simp only [processWithUuids]
    refine List.pairwise_cons.mpr ⟨?_, ih hxs (c + 2)⟩
    intro b hb
    obtain ⟨y, hy, u1, u2, hr⟩ := processWithUuids_mem hb
    rw [hr]
    exact hf x y _ _ u1 u2 (hx y hy)

theorem processWithUuids_append {α : Type} (f : α → String → String → DocumentResponse)
    (c : Nat) (xs ys : List α) :
    processWithUuids f c (xs ++ ys) =
      ((processWithUuids f c xs).1 ++ (processWithUuids f (processWithUuids f c xs).2 ys).1,
       (processWithUuids f (processWithUuids f c xs).2 ys).2) := by
  induction xs generalizing c with
  | nil => simp [processWithUuids]
  | cons x xs ih =>
    simp only [List.cons_append, processWithUuids, List.append_eq]
    rw [ih]

theorem processWithUuids_fst_indep {α : Type} {f : α → String → String → DocumentResponse}
    {xs : List α} (hf : ∀ x ∈ xs, ∀ u1 u2 u3 u4, f x u1 u2 = f x u3 u4)
    (c c' : Nat) :
    (processWithUuids f c xs).1 = (processWithUuids f c' xs).1 := by
  induction xs generalizing c c' with
  | nil => simp [processWithUuids]
  | cons x xs ih =>
    simp only [processWithUuids, List.cons.injEq]
    constructor
    · exact hf x (List.mem_cons_self x xs) _ _ _ _
    · exact ih (fun y hy => hf y (List.mem_cons_of_mem x hy)) (c + 2) (c' + 2)

/-! ### Stability of the insertion sort used to model Python list.sort -/

theorem filter_orderedInsert {α : Type} (r : α → α → Prop) [DecidableRel r]
    (p : α → Bool) (x : α) (hx : p x = true) (h : ∀ y, p y = true → r x y) :
    ∀ l : List α, (List.orderedInsert r x l).filter p = x :: l.filter p := by
  intro l
  induction l with
  | nil => simp [List.orderedInsert, hx]
  | cons y ys ih =>
    by_cases hr : r x y
    · simp [List.orderedInsert, hr, hx]
    · have hpy : p y = false := by
        cases hpy : p y with
        | true => exact absurd (h y hpy) hr
        | false => rfl
      simp [List.orderedInsert, hr, hpy, ih]

theorem filter_orderedInsert_neg {α : Type} (r : α → α → Prop) [DecidableRel r]
    (p : α → Bool) (x : α) (hx : p x = false) :
    ∀ l : List α, (List.orderedInsert r x l).filter p = l.filter p := by
  intro l
  induction l with
  | nil => simp [List.orderedInsert, hx]
  | cons y ys ih =>
    by_cases hr : r x y
    · simp [List.orderedInsert, hr, hx]
    · cases hpy : p y with
      | true => simp [List.orderedInsert, hr, hpy, ih]
      | false => simp [List.orderedInsert, hr, hpy, ih]

/-- Stability of the model sort: filtering to any class of pairwise
related-both-ways elements (for the merge: any similarity tie class)
commutes with sorting, i.e. ties keep their arrival order. -/
theorem filter_insertionSort {α : Type} (r : α → α → Prop) [DecidableRel r]
    (p : α → Bool) (hp : ∀ a b, p a = true → p b = true → r a b) :
    ∀ l : List α, (List.insertionSort r l).filter p = l.filter p := by
  intro l
  induction l with
  | nil => simp
  | cons x xs ih =>
    cases hx : p x with
    | true =>
      have := filter_orderedInsert r p x hx (fun y hy => hp x y hx hy) (List.insertionSort r xs)
      simp [List.insertionSort, this, ih, hx]
    | false =>
      have := filter_orderedInsert_neg r p x hx (List.insertionSort r xs)
      simp [List.insertionSort, this, ih, hx]

/-! ### Shape lemmas for the orchestrator -/

theorem pySlice_sublist {α : Type} (l : List α) (k : Int) : (pySlice l k).Sublist l := by
  unfold pySlice
  split
  · exact List.take_sublist _ _
  · exact List.take_sublist _ _

theorem pySlice_nonneg {α : Type} (l : List α) (k : Int) (hk : 0 ≤ k) :
    pySlice l k = l.take k.toNat := by
  simp [pySlice, hk]

theorem simKey_mkPgResponse (r : PgRow) (sim : ℚ) (u1 u2 : String) :
    simKey (mkPgResponse r sim u1 u2) = sim := rfl

theorem simKey_mkStoreResponse (sid : String) (info : StoreInfo) (d : GenericDoc)
    (u1 u2 : String) :
    simKey (mkStoreResponse sid info d u1 u2) = d.metadata.similarity.getD 0 := rfl

/-- Every response the fallback loop collects comes from one of the searched
stores, formatted by mkStoreResponse. -/
theorem collectResults_mem {env : Env} {query : String} {k : Int}
    {fd : Option FilterDict} {c : Nat} {stores : List (String × StoreData)}
    {r : DocumentResponse}
    (h : r ∈ (collectResults env query k fd c stores).1) :
    ∃ sid sd, (sid, sd) ∈ stores ∧
      ∃ d ∈ searchStore sd query k fd, ∃ u1 u2, r = mkStoreResponse sid sd.info d u1 u2 := by
  induction stores generalizing c with
  | nil => simp [collectResults] at h
  | cons s rest ih =>
    obtain ⟨sid, sd⟩ := s
    simp only [collectResults, List.mem_append] at h
    rcases h with h | h
    · obtain ⟨d, hd, u1, u2, hr⟩ := processWithUuids_mem h
      exact ⟨sid, sd, List.mem_cons_self _ _, d, hd, u1, u2, hr⟩
    · obtain ⟨sid', sd', hmem, d, hd, u1, u2, hr⟩ := ih h
      exact ⟨sid', sd', List.mem_cons_of_mem _ hmem, d, hd, u1, u2, hr⟩

/-- The fallback loop is the uuid-consuming processor run over the
store-tagged concatenation of all the per-store document lists. -/
theorem collectResults_eq_process (env : Env) (query : String) (k : Int)
    (fd : Option FilterDict) (c : Nat) (stores : List (String × StoreData)) :
    collectResults env query k fd c stores =
      processWithUuids (fun (t : String × StoreInfo × GenericDoc) u1 u2 =>
          mkStoreResponse t.1 t.2.1 t.2.2 u1 u2) c
        ((stores.map (fun p =>
          (searchStore p.2 query k fd).map (fun d => (p.1, p.2.info, d)))).flatten) := by
  induction stores generalizing c with
  | nil => simp [collectResults, processWithUuids]
  | cons s rest ih =>
    obtain ⟨sid, sd⟩ := s
    simp only [collectResults, List.map_cons, List.flatten_cons]
    rw [processWithUuids_append, ih]
    have hmap : ∀ (docs : List GenericDoc) (c0 : Nat),
        processWithUuids (mkStoreResponse sid sd.info) c0 docs =
          processWithUuids (fun (t : String × StoreInfo × GenericDoc) u1 u2 =>
              mkStoreResponse t.1 t.2.1 t.2.2 u1 u2) c0
            (docs.map (fun d => (sid, sd.info, d))) := by
      intro docs
      induction docs with
      | nil => intro c0; simp [processWithUuids]
      | cons d ds ihd =>
        intro c0
        simp only [processWithUuids, List.map_cons]
        rw [ihd]
    rw [hmap]

/-! ### Sortedness and totality of the orchestrator -/

theorem pgTopRows_pairwise (env : Env) (emb : Vec)
    (collection_ids tags : Option (List String)) (rows : List PgRow) (k : Int) :
    (pgTopRows env emb collection_ids tags rows k).Pairwise scoredRowGe :=
  List.Pairwise.sublist (List.take_sublist _ _)
    (List.sorted_insertionSort scoredRowGe _)

theorem directPgvectorSearch_sorted {env : Env} {query : String} {k : Int}
    {collection_ids tags : Option (List String)} {c : Nat}
    {l : List DocumentResponse} {c' : Nat}
    (h : directPgvectorSearch env query k collection_ids tags c = .ok (l, c')) :
    l.Pairwise simGe := by
  simp only [directPgvectorSearch] at h
  split at h
  · exact Except.noConfusion h
  · split at h
    · exact Except.noConfusion h
    · split at h
      · exact Except.noConfusion h
      · injection h with h2
        have hl : (processWithUuids
            (fun (rc : PgRow × ℚ) u1 u2 => mkPgResponse rc.1 rc.2 u1 u2) c _).1 = l :=
          congrArg Prod.fst h2
        rw [← hl]
        exact @processWithUuids_pairwise _ scoredRowGe simGe
          (fun rc u1 u2 => mkPgResponse rc.1 rc.2 u1 u2) _
          (fun x y u1 u2 u3 u4 hxy => hxy) (pgTopRows_pairwise _ _ _ _ _ _) c

theorem fallbackMerge_fst_pairwise (env : Env) (query : String) (k : Int)
    (backend_ids collection_ids tags : Option (List String)) (c1 : Nat) :
    (fallbackMerge env query k backend_ids collection_ids tags c1).1.Pairwise simGe :=
  List.Pairwise.sublist (pySlice_sublist _ _)
    (List.sorted_insertionSort simGe _)

theorem searchFallback_sorted {env : Env} {query : String} {k : Int}
    {backend_ids collection_ids tags : Option (List String)} {c1 : Nat}
    {l : List DocumentResponse} {c' : Nat}
    (h : searchFallback env query k backend_ids collection_ids tags c1 = .ok (l, c')) :
    l.Pairwise simGe := by
  unfold searchFallback at h
  split at h
  · injection h with h2
    have hl : l = [] := by
      have := congrArg Prod.fst h2
      exact this.symm
    rw [hl]
    exact List.Pairwise.nil
  · injection h with h2
    have hl : l = (fallbackMerge env query k backend_ids collection_ids tags c1).1 := by
      rw [h2]
    rw [hl]
    exact fallbackMerge_fst_pairwise env query k backend_ids collection_ids tags c1

theorem search_eq_of_cond_false {env : Env} {query : String} {k : Int}
    {backend_ids collection_ids tags : Option (List String)} {c : Nat}
    (hcond : (env.ENABLE_PGVECTOR
      && (!pyTruthy backend_ids || (backend_ids.getD []).contains "pgvector-1")) = false) :
    search env query k backend_ids collection_ids tags c =
      searchFallback env query k backend_ids collection_ids tags c := by
  simp only [search, hcond]
  simp

theorem search_eq_of_fast_error {env : Env} {query : String} {k : Int}
    {backend_ids collection_ids tags : Option (List String)} {c : Nat} {e : String}
    (hcond : (env.ENABLE_PGVECTOR
      && (!pyTruthy backend_ids || (backend_ids.getD []).contains "pgvector-1")) = true)
    (hd : directPgvectorSearch env query k collection_ids tags c = .error e) :
    search env query k backend_ids collection_ids tags c =
      searchFallback env query k backend_ids collection_ids tags c := by
  simp only [search, hcond, hd]
  simp

theorem search_eq_of_fast_empty {env : Env} {query : String} {k : Int}
    {backend_ids collection_ids tags : Option (List String)} {c : Nat}
    {r : List DocumentResponse × Nat}
    (hcond : (env.ENABLE_PGVECTOR
      && (!pyTruthy backend_ids || (backend_ids.getD []).contains "pgvector-1")) = true)
    (hd : directPgvectorSearch env query k collection_ids tags c = .ok r)
    (hr : r.1.isEmpty = true) :
    search env query k backend_ids collection_ids tags c =
      searchFallback env query k backend_ids collection_ids tags r.2 := by
  simp only [search, hcond, hd, hr]
  simp

theorem search_eq_of_fast_nonempty {env : Env} {query : String} {k : Int}
    {backend_ids collection_ids tags : Option (List String)} {c : Nat}
    {r : List DocumentResponse × Nat}
    (hcond : (env.ENABLE_PGVECTOR
      && (!pyTruthy backend_ids || (backend_ids.getD []).contains "pgvector-1")) = true)
    (hd : directPgvectorSearch env query k collection_ids tags c = .ok r)
    (hr : r.1.isEmpty = false) :
    search env query k backend_ids collection_ids tags c = .ok r := by
  simp only [search, hcond, hd, hr]
  simp

theorem search_sorted {env : Env} {query : String} {k : Int}
    {backend_ids collection_ids tags : Option (List String)} {c : Nat}
    {l : List DocumentResponse} {c' : Nat}
    (h : search env query k backend_ids collection_ids tags c = .ok (l, c')) :
    l.Pairwise simGe := by
  by_cases hcond : (env.ENABLE_PGVECTOR
      && (!pyTruthy backend_ids || (backend_ids.getD []).contains "pgvector-1")) = true
  · cases hd : directPgvectorSearch env query k collection_ids tags c with
    | error e =>
      rw [search_eq_of_fast_error hcond hd] at h
      exact searchFallback_sorted h
    | ok r =>
      cases hr : r.1.isEmpty with
      | true =>
        rw [search_eq_of_fast_empty hcond hd hr] at h
        exact searchFallback_sorted h
      | false =>
        rw [search_eq_of_fast_nonempty hcond hd hr] at h
        injection h with h2
        have hl : r.1 = l := congrArg Prod.fst h2
        rw [← hl]
        exact directPgvectorSearch_sorted (Prod.mk.eta (p := r) ▸ hd)
  · rw [search_eq_of_cond_false (Bool.of_not_eq_true hcond)] at h
    exact searchFallback_sorted h

theorem searchFallback_isOk (env : Env) (query : String) (k : Int)
    (backend_ids collection_ids tags : Option (List String)) (c1 : Nat) :
    ∃ l c', searchFallback env query k backend_ids collection_ids tags c1 = .ok (l, c') := by
  unfold searchFallback
  split
  · exact ⟨[], c1, rfl⟩
  · exact ⟨_, _, rfl⟩

/-- The service search never lets an exception escape: every branch of the
orchestrator returns a normal result list. -/
theorem search_isOk (env : Env) (query : String) (k : Int)
    (backend_ids collection_ids tags : Option (List String)) (c : Nat) :
    ∃ l c', search env query k backend_ids collection_ids tags c = .ok (l, c') := by
  by_cases hcond : (env.ENABLE_PGVECTOR
      && (!pyTruthy backend_ids || (backend_ids.getD []).contains "pgvector-1")) = true
  · cases hd : directPgvectorSearch env query k collection_ids tags c with
    | error e =>
      rw [search_eq_of_fast_error hcond hd]
      exact searchFallback_isOk env query k backend_ids collection_ids tags c
    | ok r =>
      cases hr : r.1.isEmpty with
      | true =>
        rw [search_eq_of_fast_empty hcond hd hr]
        exact searchFallback_isOk env query k backend_ids collection_ids tags r.2
      | false =>
        rw [search_eq_of_fast_nonempty hcond hd hr]
        exact ⟨r.1, r.2, rfl⟩
  · rw [search_eq_of_cond_false (Bool.of_not_eq_true hcond)]
    exact searchFallback_isOk env query k backend_ids collection_ids tags c

/-! ### Concrete fixtures used by witnesses and counterexamples -/

/-- A fully-identified stored row. -/
def rowA : PgRow :=
  { content := "The Apollo guidance computer was developed at MIT."
    metadata := { documentId := some "doc-1", documentName := some "Apollo 11 Report",
                  chunkId := some "chunk-1", chunkIndex := some 0,
                  tags := some ["nasa"], collection := some "apollo-11", similarity := none }
    embedding := [1, 0] }

/-- Environment with one pgvector row, a working embedder, zero distance. -/
def envA : Env :=
  { ENABLE_PGVECTOR := true
    pgTable := .ok [rowA]
    cosDist := fun _ _ => 0
    embed := fun _ => .ok [1, 0]
    vector_stores := [] }

/-- The response the fast path produces for rowA at supply counter 0. -/
def respA : DocumentResponse := mkPgResponse rowA (1 - (0 : ℚ)) (mkUuid 0) (mkUuid 1)

/-- A store whose backend raises on every search. -/
def storeFailing : StoreData :=
  { info := { id := "pinecone-1", name := "Pinecone Vector DB", type := "pinecone" }
    similarity_search := fun _ _ _ => .error "connection refused" }

/-- Two healthy fallback documents with literal stored similarities,
arriving in ascending-similarity order. -/
def docLow : GenericDoc :=
  { page_content := "low"
    metadata := { documentId := some "doc-low"
                  chunkId := some "chunk-low"
                  similarity := some 0 } }

def docHigh : GenericDoc :=
  { page_content := "high"
    metadata := { documentId := some "doc-high"
                  chunkId := some "chunk-high"
                  similarity := some 1 } }

/-- A healthy store returning the two documents. -/
def storeHealthy : StoreData :=
  { info := { id := "pgvector-1", name := "PostgreSQL Vector DB", type := "pgvector" }
    similarity_search := fun _ _ _ => .ok [docLow, docHigh] }

/-- Fallback-only environment: one failing store and one healthy store. -/
def envC6 : Env :=
  { ENABLE_PGVECTOR := false
    pgTable := .error "disabled"
    cosDist := fun _ _ => 0
    embed := fun _ => .ok [1, 0]
    vector_stores := [("pinecone-1", storeFailing), ("pgvector-1", storeHealthy)] }

/-- Environment whose embedding provider is down; its only store fails for
the same reason (its internal embedding call raises too). -/
def envEmbedDown : Env :=
  { ENABLE_PGVECTOR := true
    pgTable := .ok [rowA]
    cosDist := fun _ _ => 0
    embed := fun _ => .error "embedding provider unreachable"
    vector_stores := [("pgvector-1",
      { info := { id := "pgvector-1", name := "PostgreSQL Vector DB", type := "pgvector" }
        similarity_search := fun _ _ _ => .error "embedding provider unreachable" })] }

/-! ### C1 -/

/-- C1: whenever pgvector is enabled, the backendIds filter is absent or
includes pgvector-1, and the fast-path query returns a non-empty list, the
search returns exactly that list (already sorted and limited), bypassing
every other backend. -/
theorem C1_fast_path_short_circuit (env : Env) (query : String) (k : Int)
    (backend_ids collection_ids tags : Option (List String)) (c : Nat)
    (l : List DocumentResponse) (c' : Nat)
    (hpg : env.ENABLE_PGVECTOR = true)
    (hbid : pyTruthy backend_ids = false ∨ (backend_ids.getD []).contains "pgvector-1" = true)
    (hfast : directPgvectorSearch env query k collection_ids tags c = .ok (l, c'))
    (hne : l ≠ []) :
    search env query k backend_ids collection_ids tags c = .ok (l, c') := by
  have hor : (!pyTruthy backend_ids || (backend_ids.getD []).contains "pgvector-1") = true := by
    rcases hbid with h | h
    · rw [h]; rfl
    · rw [h]; simp
  have hcond : (env.ENABLE_PGVECTOR
      && (!pyTruthy backend_ids || (backend_ids.getD []).contains "pgvector-1")) = true := by
    rw [hpg, hor]; rfl
  have hr : ((l, c') : List DocumentResponse × Nat).1.isEmpty = false := by
    cases l with
    | nil => exact absurd rfl hne
    | cons a as => rfl
  exact search_eq_of_fast_nonempty hcond hfast hr

/-- C1 witness: a concrete single-row environment where the fast path fires
and the search returns its result unchanged. -/
theorem C1_fast_path_short_circuit_witness :
    search envA "apollo" 5 none none none 0 = .ok ([respA], 2) :=
  C1_fast_path_short_circuit envA "apollo" 5 none none none 0 [respA] 2
    rfl (Or.inl rfl) rfl (by simp)

/-! ### C6 -/

/-- C6: during the fallback path, a store that raises contributes nothing
and does not abort the search: with one failing and one healthy store, the
result is exactly the merge of the healthy store's formatted matches, and
no exception reaches the caller (the result is a normal ok value). -/
theorem C6_backend_error_isolated (env : Env) (query : String) (k : Int)
    (collection_ids tags : Option (List String)) (c : Nat)
    (idA idB : String) (sdA sdB : StoreData) (e : String)
    (hpg : env.ENABLE_PGVECTOR = false)
    (hstores : env.vector_stores = [(idA, sdA), (idB, sdB)])
    (hA : sdA.similarity_search query k (buildFilterDict collection_ids tags) = .error e)
    (hB : ∃ docs, sdB.similarity_search query k (buildFilterDict collection_ids tags) = .ok docs) :
    search env query k none collection_ids tags c =
      .ok (pySlice (List.insertionSort simGe
            (collectResults env query k (buildFilterDict collection_ids tags) c [(idB, sdB)]).1) k,
           (collectResults env query k (buildFilterDict collection_ids tags) c [(idB, sdB)]).2) := by
  have hcond : (env.ENABLE_PGVECTOR
      && (!pyTruthy (none : Option (List String))
          || ((none : Option (List String)).getD []).contains "pgvector-1")) = false := by
    simp [hpg]
  rw [search_eq_of_cond_false hcond]
  have hsts : storesToSearch env none = [(idA, sdA), (idB, sdB)] := by
    simp [storesToSearch, pyTruthy, hstores]
  have hcollect : collectResults env query k (buildFilterDict collection_ids tags) c
      [(idA, sdA), (idB, sdB)] =
      collectResults env query k (buildFilterDict collection_ids tags) c [(idB, sdB)] := by
    simp [collectResults, searchStore, hA, processWithUuids]
  simp only [searchFallback, fallbackMerge, hsts, hcollect]
  simp

/-- C6 witness: concrete two-store fallback environment; the failing store
is silently skipped and the healthy one's two documents come back sorted by
similarity descending. -/
theorem C6_backend_error_isolated_witness :
    search envC6 "q" 5 none none none 0 =
      .ok ([mkStoreResponse "pgvector-1" storeHealthy.info docHigh (mkUuid 2) (mkUuid 3),
            mkStoreResponse "pgvector-1" storeHealthy.info docLow (mkUuid 0) (mkUuid 1)], 4) :=
  (C6_backend_error_isolated envC6 "q" 5 none none 0 "pinecone-1" "pgvector-1"
      storeFailing storeHealthy "connection refused" rfl rfl rfl
      ⟨[docLow, docHigh], rfl⟩).trans (congrArg Except.ok (by decide))

/-! ### C7 -/

/-- C7 counterexample: the embedding provider fails, yet the search call
returns a normal empty list instead of propagating the failure. -/
theorem C7_counterexample_embed_error_swallowed :
    envEmbedDown.embed "q" = .error "embedding provider unreachable" ∧
    search envEmbedDown "q" 5 none none none 0 = .ok ([], 0) :=
  ⟨rfl, rfl⟩

/-- C7 (amended): an embedding-provider failure is never propagated to the
caller: the fast path fails and the orchestrator falls back to the generic
path with the supply untouched, and the overall call still returns a normal
(possibly empty) result list. -/
theorem C7_amended_embed_error_not_fatal (env : Env) (query : String) (k : Int)
    (backend_ids collection_ids tags : Option (List String)) (c : Nat) (e : String)
    (hemb : env.embed query = .error e) :
    search env query k backend_ids collection_ids tags c =
      searchFallback env query k backend_ids collection_ids tags c ∧
    ∃ l c', search env query k backend_ids collection_ids tags c = .ok (l, c') := by
  have hd : directPgvectorSearch env query k collection_ids tags c = .error e := by
    simp [directPgvectorSearch, hemb]
  refine ⟨?_, search_isOk env query k backend_ids collection_ids tags c⟩
  by_cases hcond : (env.ENABLE_PGVECTOR
      && (!pyTruthy backend_ids || (backend_ids.getD []).contains "pgvector-1")) = true
  · exact search_eq_of_fast_error hcond hd
  · exact search_eq_of_cond_false (Bool.of_not_eq_true hcond)

/-- C7 amended witness: the concrete embedding-outage environment. -/
theorem C7_amended_embed_error_not_fatal_witness :
    search envEmbedDown "q" 5 none none none 0 =
      searchFallback envEmbedDown "q" 5 none none none 0 ∧
    ∃ l c', search envEmbedDown "q" 5 none none none 0 = .ok (l, c') :=
  C7_amended_embed_error_not_fatal envEmbedDown "q" 5 none none none 0
    "embedding provider unreachable" rfl

/-! ### C8 -/

set_option maxRecDepth 8000 in
/-- C8: the composed SQL text is not independent of the filter values; the
tag value is concatenated into the query text (no bound parameters), so two
requests differing only in the tag value produce different SQL texts. -/
theorem C8_sql_text_depends_on_filter_values :
    buildPgSql "documents" "[1,0]" none (some ["nasa"]) 5 =
      "SELECT content, metadata, 1 - (embedding <=> \x27[1,0]\x27::vector) AS similarity FROM documents WHERE (metadata->\x27tags\x27 ? \x27nasa\x27) ORDER BY similarity DESC LIMIT 5" ∧
    buildPgSql "documents" "[1,0]" none (some ["nasa"]) 5 ≠
      buildPgSql "documents" "[1,0]" none (some ["injected"]) 5 := by
  constructor
  · decide
  · decide

/-! ### Result length -/

theorem pgTopRows_length_le (env : Env) (emb : Vec)
    (collection_ids tags : Option (List String)) (rows : List PgRow) (k : Int) :
    (pgTopRows env emb collection_ids tags rows k).length ≤ k.toNat := by
  unfold pgTopRows
  exact List.length_take_le _ _

theorem directPgvectorSearch_length {env : Env} {query : String} {k : Int}
    {collection_ids tags : Option (List String)} {c : Nat}
    {l : List DocumentResponse} {c' : Nat}
    (h : directPgvectorSearch env query k collection_ids tags c = .ok (l, c')) :
    l.length ≤ k.toNat := by
  simp only [directPgvectorSearch] at h
  split at h
  · exact Except.noConfusion h
  · split at h
    · exact Except.noConfusion h
    · split at h
      · exact Except.noConfusion h
      · injection h with h2
        have hl : (processWithUuids
            (fun (rc : PgRow × ℚ) u1 u2 => mkPgResponse rc.1 rc.2 u1 u2) c _).1 = l :=
          congrArg Prod.fst h2
        rw [← hl, processWithUuids_length]
        exact pgTopRows_length_le _ _ _ _ _ _

theorem searchFallback_length {env : Env} {query : String} {k : Int}
    {backend_ids collection_ids tags : Option (List String)} {c1 : Nat}
    {l : List DocumentResponse} {c' : Nat} (hk : 0 ≤ k)
    (h : searchFallback env query k backend_ids collection_ids tags c1 = .ok (l, c')) :
    l.length ≤ k.toNat := by
  unfold searchFallback at h
  split at h
  · injection h with h2
    have hl : ([] : List DocumentResponse) = l := congrArg Prod.fst h2
    rw [← hl]
    exact Nat.zero_le _
  · injection h with h2
    have hl : (fallbackMerge env query k backend_ids collection_ids tags c1).1 = l :=
      congrArg Prod.fst h2
    rw [← hl]
    unfold fallbackMerge
    rw [pySlice_nonneg _ _ hk]
    exact List.length_take_le _ _

theorem search_length {env : Env} {query : String} {k : Int}
    {backend_ids collection_ids tags : Option (List String)} {c : Nat}
    {l : List DocumentResponse} {c' : Nat} (hk : 0 ≤ k)
    (h : search env query k backend_ids collection_ids tags c = .ok (l, c')) :
    l.length ≤ k.toNat := by
  by_cases hcond : (env.ENABLE_PGVECTOR
      && (!pyTruthy backend_ids || (backend_ids.getD []).contains "pgvector-1")) = true
  · cases hd : directPgvectorSearch env query k collection_ids tags c with
    | error e =>
      rw [search_eq_of_fast_error hcond hd] at h
      exact searchFallback_length hk h
    | ok r =>
      cases hr : r.1.isEmpty with
      | true =>
        rw [search_eq_of_fast_empty hcond hd hr] at h
        exact searchFallback_length hk h
      | false =>
        rw [search_eq_of_fast_nonempty hcond hd hr] at h
        injection h with h2
        have hl : r.1 = l := congrArg Prod.fst h2
        rw [← hl]
        exact directPgvectorSearch_length (Prod.mk.eta (p := r) ▸ hd)
  · rw [search_eq_of_cond_false (Bool.of_not_eq_true hcond)] at h
    exact searchFallback_length hk h

/-! ### C2 -/

/-- C2 counterexample: with k = -1 (so k ≤ 0) the fallback slice drops only
the last element, and a non-empty list is returned instead of the empty one
the claim requires. -/
theorem C2_counterexample_negative_k :
    search envC6 "q" (-1) none none none 0 =
      .ok ([mkStoreResponse "pgvector-1" storeHealthy.info docHigh (mkUuid 2) (mkUuid 3)], 4) ∧
    (-1 : Int) ≤ 0 ∧
    [mkStoreResponse "pgvector-1" storeHealthy.info docHigh (mkUuid 2) (mkUuid 3)] ≠
      ([] : List DocumentResponse) := by
  refine ⟨?_, by decide, by simp⟩
  rfl

/-- C2 (amended): for every nonnegative k the returned list has length at
most k, and for k = 0 it is empty and no error is raised; for negative k the
Python slice semantics applies instead (see the counterexample), so the list
need not be empty. -/
theorem C2_amended_length_bound (env : Env) (query : String) (k : Int)
    (backend_ids collection_ids tags : Option (List String)) (c : Nat) (hk : 0 ≤ k) :
    ∃ l c', search env query k backend_ids collection_ids tags c = .ok (l, c') ∧
      l.length ≤ k.toNat ∧ (k = 0 → l = []) := by
  obtain ⟨l, c', h⟩ := search_isOk env query k backend_ids collection_ids tags c
  refine ⟨l, c', h, search_length hk h, ?_⟩
  intro hk0
  have hlen := search_length hk h
  rw [hk0] at hlen
  exact List.length_eq_zero.mp (Nat.le_zero.mp hlen)

/-- C2 amended witness: the two-store environment at k = 2 returns both
documents; at k = 0 the instantiated theorem forces the empty list. -/
theorem C2_amended_length_bound_witness :
    (0 : Int) ≤ 0 ∧
    (∃ l c', search envC6 "q" 0 none none none 0 = .ok (l, c') ∧
      l.length ≤ (0 : Int).toNat ∧ ((0 : Int) = 0 → l = [])) :=
  ⟨by decide, C2_amended_length_bound envC6 "q" 0 none none none 0 (by decide)⟩

/-! ### Score provenance -/

theorem pgTopRows_mem {env : Env} {emb : Vec} {collection_ids tags : Option (List String)}
    {rows : List PgRow} {k : Int} {rc : PgRow × ℚ}
    (h : rc ∈ pgTopRows env emb collection_ids tags rows k) :
    ∃ row ∈ rows, rc = (row, 1 - env.cosDist emb row.embedding) := by
  unfold pgTopRows at h
  have h1 : rc ∈ List.insertionSort scoredRowGe (pgScoredRows env emb collection_ids tags rows) :=
    (List.take_sublist _ _).subset h
  have h2 : rc ∈ pgScoredRows env emb collection_ids tags rows :=
    (List.perm_insertionSort scoredRowGe _).mem_iff.mp h1
  unfold pgScoredRows at h2
  rw [List.mem_filterMap] at h2
  obtain ⟨row, hrow, hf⟩ := h2
  by_cases hm : rowMatchesWhere collection_ids tags row.metadata = true
  · rw [if_pos hm] at hf
    exact ⟨row, hrow, (Option.some.inj hf).symm⟩
  · rw [if_neg hm] at hf
    exact Option.noConfusion hf

/-- Every similarity the fast path attaches is the canonical score
1 - cosine distance of the query embedding and the stored vector. -/
theorem directPgvectorSearch_score_shape {env : Env} {query : String} {k : Int}
    {collection_ids tags : Option (List String)} {c : Nat}
    {l : List DocumentResponse} {c' : Nat}
    (h : directPgvectorSearch env query k collection_ids tags c = .ok (l, c')) :
    ∀ r ∈ l, ∃ emb rows row, env.embed query = .ok emb ∧ env.pgTable = .ok rows ∧
      row ∈ rows ∧ r.similarity = some (1 - env.cosDist emb row.embedding) := by
  simp only [directPgvectorSearch] at h
  split at h
  · exact Except.noConfusion h
  · split at h
    · exact Except.noConfusion h
    · split at h
      · exact Except.noConfusion h
      · rename_i x1 emb hemb x2 rows htab hk
        injection h with h2
        have hl : (processWithUuids
            (fun (rc : PgRow × ℚ) u1 u2 => mkPgResponse rc.1 rc.2 u1 u2) c _).1 = l :=
          congrArg Prod.fst h2
        intro r hr
        rw [← hl] at hr
        obtain ⟨rc, hrc, u1, u2, hre⟩ := processWithUuids_mem hr
        obtain ⟨row, hrow, hrceq⟩ := pgTopRows_mem hrc
        refine ⟨emb, rows, row, hemb, htab, hrow, ?_⟩
        rw [hre, hrceq]
        rfl

/-- Every similarity the fallback loop attaches is the stored metadata
similarity of the returned document, defaulted to 0. -/
theorem collectResults_score_shape {env : Env} {query : String} {k : Int}
    {fd : Option FilterDict} {c : Nat} {stores : List (String × StoreData)}
    {r : DocumentResponse}
    (h : r ∈ (collectResults env query k fd c stores).1) :
    ∃ sid sd, (sid, sd) ∈ stores ∧ ∃ d ∈ searchStore sd query k fd,
      r.similarity = some (d.metadata.similarity.getD 0) := by
  obtain ⟨sid, sd, hmem, d, hd, u1, u2, hre⟩ := collectResults_mem h
  refine ⟨sid, sd, hmem, d, hd, ?_⟩
  rw [hre]
  rfl

/-! ### C3 -/

/-- A stored vector pointing opposite to the query: cosine distance 2. -/
def rowOpp : PgRow :=
  { content := "The opposite document."
    metadata := { documentId := some "doc-2", documentName := some "Opposite",
                  chunkId := some "chunk-2", chunkIndex := some 0,
                  tags := some ["nasa"], collection := some "apollo-11", similarity := none }
    embedding := [-1, 0] }

/-- Environment in which the stored vector is opposite to every query
embedding, so the server-side cosine distance is 2. -/
def envC3 : Env :=
  { ENABLE_PGVECTOR := true
    pgTable := .ok [rowOpp]
    cosDist := fun _ _ => 2
    embed := fun _ => .ok [1, 0]
    vector_stores := [] }

/-- The fast-path response for rowOpp: similarity 1 - 2 = -1. -/
def respOpp : DocumentResponse := mkPgResponse rowOpp (1 - (2 : ℚ)) (mkUuid 0) (mkUuid 1)

/-- C3 counterexample: the router returns a similarity of -1 (below the
claimed closed interval [0, 1]); nothing clamps the value. -/
theorem C3_counterexample_negative_similarity :
    search_documents envC3 "q" 5 none none none 0 = .ok ([respOpp], 2) ∧
    respOpp.similarity = some (1 - 2) ∧ ((1 : ℚ) - 2 < 0) :=
  ⟨rfl, rfl, by norm_num⟩

/-- C3 (amended): every similarity in a router result is a number, never
nan (a nan service value would be coerced to 0.0 by the router); and under
the pgvector guarantee that cosine distance lies in [0, 2] the fast-path
similarities lie in [-1, 1] - but they are not confined to [0, 1]. -/
theorem C3_amended_no_nan_and_range :
    (∀ (env : Env) (query : String) (k : Int)
       (backend_ids collection_ids tags : Option (List String)) (c : Nat)
       (l : List DocumentResponse) (c' : Nat),
       search_documents env query k backend_ids collection_ids tags c = .ok (l, c') →
       ∀ r ∈ l, r.similarity.isSome) ∧
    (∀ r : DocumentResponse, r.similarity = none →
       (sanitizeResponse r).similarity = some 0) ∧
    (∀ (env : Env) (query : String) (k : Int)
       (collection_ids tags : Option (List String)) (c : Nat)
       (l : List DocumentResponse) (c' : Nat),
       (∀ a b, 0 ≤ env.cosDist a b ∧ env.cosDist a b ≤ 2) →
       directPgvectorSearch env query k collection_ids tags c = .ok (l, c') →
       ∀ r ∈ l, -1 ≤ r.similarity.getD 0 ∧ r.similarity.getD 0 ≤ 1) := by
  refine ⟨?_, ?_, ?_⟩
  · intro env query k backend_ids collection_ids tags c l c' h r hr
    simp only [search_documents] at h
    split at h
    · exact Except.noConfusion h
    · rename_i x0 rs0 cnt0 hs
      injection h with h2
      have hl : rs0.map sanitizeResponse = l := congrArg Prod.fst h2
      rw [← hl] at hr
      rw [List.mem_map] at hr
      obtain ⟨r0, _, hre⟩ := hr
      rw [← hre]
      unfold sanitizeResponse
      cases hs0 : r0.similarity <;> simp [hs0]
  · intro r hnan
    unfold sanitizeResponse
    rw [hnan]
  · intro env query k collection_ids tags c l c' hdist h r hr
    obtain ⟨emb, rows, row, _, _, _, hsim⟩ := directPgvectorSearch_score_shape h r hr
    rw [hsim]
    obtain ⟨hd0, hd2⟩ := hdist emb row.embedding
    constructor
    · simp only [Option.getD_some]
      linarith
    · simp only [Option.getD_some]
      linarith

/-- A response carrying the nan similarity, for exercising the router
coercion directly. -/
def nanResp : DocumentResponse :=
  { content := "x"
    metadata := buildDocMetadata {} "a" "b"
    source_id := "s"
    source_name := "n"
    source_type := "t"
    similarity := none }

/-- C3 amended witness: at the opposite-vector environment the router output
similarity is a number; a literal nan response is coerced to 0; and at the
zero-distance environment the fast-path score lies in [-1, 1]. -/
theorem C3_amended_no_nan_and_range_witness :
    (respOpp.similarity.isSome) ∧
    ((sanitizeResponse nanResp).similarity = some 0) ∧
    (-1 ≤ respA.similarity.getD 0 ∧ respA.similarity.getD 0 ≤ 1) := by
  refine ⟨?_, ?_, ?_⟩
  · exact C3_amended_no_nan_and_range.1 envC3 "q" 5 none none none 0 [respOpp] 2 rfl
      respOpp (by simp)
  · exact C3_amended_no_nan_and_range.2.1 nanResp rfl
  · exact C3_amended_no_nan_and_range.2.2 envA "apollo" 5 none none 0 [respA] 2
      (fun a b => by constructor <;> norm_num [envA]) rfl respA (by simp)

/-! ### C4 -/

/-- C4: every returned list is sorted with similarity descending on adjacent
pairs; the fallback merge is a stable sort (each similarity tie class keeps
its backend-then-arrival order) and, for nonnegative k, the slice keeps the
first k elements of the sorted merge. -/
theorem C4_sorted_stable_truncated (env : Env) (query : String) (k : Int)
    (backend_ids collection_ids tags : Option (List String)) (c : Nat) (hk : 0 ≤ k) :
    (∃ l c', search env query k backend_ids collection_ids tags c = .ok (l, c') ∧
       l.Chain' (fun a b => simKey b ≤ simKey a)) ∧
    (∀ (collected : List DocumentResponse) (q0 : ℚ),
       (List.insertionSort simGe collected).filter (fun r => decide (simKey r = q0)) =
         collected.filter (fun r => decide (simKey r = q0))) ∧
    (∀ collected : List DocumentResponse,
       pySlice (List.insertionSort simGe collected) k =
         (List.insertionSort simGe collected).take k.toNat) := by
  refine ⟨?_, ?_, ?_⟩
  · obtain ⟨l, c', h⟩ := search_isOk env query k backend_ids collection_ids tags c
    exact ⟨l, c', h, (search_sorted h).chain'⟩
  · intro collected q0
    refine filter_insertionSort simGe _ ?_ collected
    intro a b ha hb
    have ha' : simKey a = q0 := of_decide_eq_true ha
    have hb' : simKey b = q0 := of_decide_eq_true hb
    unfold simGe
    rw [ha', hb']
  · intro collected
    exact pySlice_nonneg _ _ hk

/-- C4 witness: instantiated at the two-store fallback environment with
k = 5 (the sorted two-element output is exhibited by the C6 witness). -/
theorem C4_sorted_stable_truncated_witness :
    (0 : Int) ≤ 5 ∧
    ((∃ l c', search envC6 "q" 5 none none none 0 = .ok (l, c') ∧
       l.Chain' (fun a b => simKey b ≤ simKey a)) ∧
    (∀ (collected : List DocumentResponse) (q0 : ℚ),
       (List.insertionSort simGe collected).filter (fun r => decide (simKey r = q0)) =
         collected.filter (fun r => decide (simKey r = q0))) ∧
    (∀ collected : List DocumentResponse,
       pySlice (List.insertionSort simGe collected) 5 =
         (List.insertionSort simGe collected).take (5 : Int).toNat)) :=
  ⟨by decide, C4_sorted_stable_truncated envC6 "q" 5 none none none 0 (by decide)⟩

/-! ### C5 -/

/-- A stored document whose metadata has no similarity key (LangChain
similarity_search returns stored metadata and attaches no scores). -/
def docPlain : GenericDoc :=
  { page_content := "plain"
    metadata := { documentId := some "doc-p"
                  chunkId := some "chunk-p" } }

/-- The LangChain pgvector store object holding docPlain. -/
def storePgLang : StoreData :=
  { info := { id := "pgvector-1", name := "PostgreSQL Vector DB", type := "pgvector" }
    similarity_search := fun _ _ _ => .ok [docPlain] }

/-- Direct psycopg2 connection refused, LangChain store healthy: the
fallback path serves the stored record. -/
def envC5 : Env :=
  { ENABLE_PGVECTOR := true
    pgTable := .error "psycopg2 connection refused"
    cosDist := fun _ _ => 0
    embed := fun _ => .ok [1, 0]
    vector_stores := [("pgvector-1", storePgLang)] }

/-- C5 counterexample: the fallback path attaches similarity 0.0 (the
metadata default) to a record whose canonical score 1 - cosine distance is
1, so the two paths do not produce the canonical score for the same record. -/
theorem C5_counterexample_fallback_score_not_canonical :
    search envC5 "q" 5 none none none 0 =
      .ok ([mkStoreResponse "pgvector-1" storePgLang.info docPlain (mkUuid 0) (mkUuid 1)], 2) ∧
    (mkStoreResponse "pgvector-1" storePgLang.info docPlain (mkUuid 0) (mkUuid 1)).similarity =
      some 0 ∧
    1 - envC5.cosDist [1, 0] [1, 0] = 1 ∧
    (some (0 : ℚ) : Option ℚ) ≠ some (1 - envC5.cosDist [1, 0] [1, 0]) := by
  refine ⟨rfl, rfl, ?_, ?_⟩
  · show (1 : ℚ) - 0 = 1
    norm_num
  · show (some (0 : ℚ) : Option ℚ) ≠ some ((1 : ℚ) - 0)
    simp

/-- C5 (amended): the fast path attaches the canonical score
1 - cosine_distance(query embedding, stored vector) to every match, but the
fallback path attaches the stored metadata similarity value defaulted to
0.0; the two paths agree on a record only when its stored metadata happens
to contain the canonical value. -/
theorem C5_amended_score_definitions :
    (∀ (env : Env) (query : String) (k : Int)
       (collection_ids tags : Option (List String)) (c : Nat)
       (l : List DocumentResponse) (c' : Nat),
       directPgvectorSearch env query k collection_ids tags c = .ok (l, c') →
       ∀ r ∈ l, ∃ emb rows row, env.embed query = .ok emb ∧ env.pgTable = .ok rows ∧
         row ∈ rows ∧ r.similarity = some (1 - env.cosDist emb row.embedding)) ∧
    (∀ (env : Env) (query : String) (k : Int)
       (fd : Option FilterDict) (c : Nat) (stores : List (String × StoreData))
       (r : DocumentResponse), r ∈ (collectResults env query k fd c stores).1 →
       ∃ sid sd, (sid, sd) ∈ stores ∧ ∃ d ∈ searchStore sd query k fd,
         r.similarity = some (d.metadata.similarity.getD 0)) :=
  ⟨fun _ _ _ _ _ _ _ _ h => directPgvectorSearch_score_shape h,
   fun _ _ _ _ _ _ _ h => collectResults_score_shape h⟩

/-- C5 amended witness: the fast path attaches 1 - 0 to rowA; the fallback
attaches the 0.0 default to docPlain. -/
theorem C5_amended_score_definitions_witness :
    (∃ emb rows row, envA.embed "apollo" = .ok emb ∧ envA.pgTable = .ok rows ∧
       row ∈ rows ∧ respA.similarity = some (1 - envA.cosDist emb row.embedding)) ∧
    (∃ sid sd, (sid, sd) ∈ [("pgvector-1", storePgLang)] ∧
       ∃ d ∈ searchStore sd "q" 5 (buildFilterDict none none),
         (mkStoreResponse "pgvector-1" storePgLang.info docPlain (mkUuid 0)
             (mkUuid 1)).similarity = some (d.metadata.similarity.getD 0)) := by
  constructor
  · exact C5_amended_score_definitions.1 envA "apollo" 5 none none 0 [respA] 2 rfl
      respA (by simp)
  · refine C5_amended_score_definitions.2 envC5 "q" 5 (buildFilterDict none none) 0
      [("pgvector-1", storePgLang)] _ ?_
    show mkStoreResponse "pgvector-1" storePgLang.info docPlain (mkUuid 0) (mkUuid 1) ∈
      (collectResults envC5 "q" 5 (buildFilterDict none none) 0
        [("pgvector-1", storePgLang)]).1
    simp [collectResults, searchStore, storePgLang, processWithUuids]

/-! ### Supply independence when stored identifiers are present -/

theorem lookup_mem {vs : List (String × StoreData)} {i : String} {sd : StoreData}
    (h : vs.lookup i = some sd) : (i, sd) ∈ vs := by
  induction vs with
  | nil => exact Option.noConfusion h
  | cons p rest ih =>
    obtain ⟨a, b⟩ := p
    simp only [List.lookup] at h
    cases hia : (i == a) with
    | true =>
      rw [hia] at h
      have hsd : b = sd := Option.some.inj h
      have := eq_of_beq hia
      rw [this, hsd]
      exact List.mem_cons_self _ _
    | false =>
      rw [hia] at h
      exact List.mem_cons_of_mem _ (ih h)

theorem storesToSearch_subset (env : Env) (backend_ids : Option (List String)) :
    ∀ p ∈ storesToSearch env backend_ids, p ∈ env.vector_stores := by
  unfold storesToSearch
  split
  · have hgen : ∀ (ids : List String) (acc : List (String × StoreData)),
        (∀ q ∈ acc, q ∈ env.vector_stores) →
        ∀ p ∈ ids.foldl (fun acc sid =>
            match env.vector_stores.lookup sid with
            | some sd => if (acc.lookup sid).isSome then acc else acc ++ [(sid, sd)]
            | none => acc) acc, p ∈ env.vector_stores := by
      intro ids
      induction ids with
      | nil => intro acc hacc p hp; exact hacc p hp
      | cons i is ih =>
        intro acc hacc p hp
        rw [List.foldl_cons] at hp
        refine ih _ ?_ p hp
        cases hlk : env.vector_stores.lookup i with
        | none => simp only [hlk]; exact hacc
        | some sd =>
          simp only [hlk]
          split
          · exact hacc
          · intro q hq
            rw [List.mem_append] at hq
            rcases hq with hq | hq
            · exact hacc q hq
            · rw [List.mem_singleton] at hq
              rw [hq]
              exact lookup_mem hlk
    exact hgen _ [] (fun q hq => absurd hq (List.not_mem_nil q))
  · exact fun p hp => hp

theorem mkPgResponse_indep {r : PgRow} (sim : ℚ)
    (hid : r.metadata.documentId.isSome) (hch : r.metadata.chunkId.isSome)
    (u1 u2 u3 u4 : String) :
    mkPgResponse r sim u1 u2 = mkPgResponse r sim u3 u4 := by
  obtain ⟨d, hd⟩ := Option.isSome_iff_exists.mp hid
  obtain ⟨ch, hc⟩ := Option.isSome_iff_exists.mp hch
  simp [mkPgResponse, buildDocMetadata, hd, hc]

theorem mkStoreResponse_indep (sid : String) (info : StoreInfo) {d : GenericDoc}
    (hid : d.metadata.documentId.isSome) (hch : d.metadata.chunkId.isSome)
    (u1 u2 u3 u4 : String) :
    mkStoreResponse sid info d u1 u2 = mkStoreResponse sid info d u3 u4 := by
  obtain ⟨i, hi⟩ := Option.isSome_iff_exists.mp hid
  obtain ⟨ch, hc⟩ := Option.isSome_iff_exists.mp hch
  simp [mkStoreResponse, buildDocMetadata, hi, hc]

theorem directPgvectorSearch_fst_indep (env : Env) (query : String) (k : Int)
    (collection_ids tags : Option (List String))
    (hrows : ∀ rows, env.pgTable = .ok rows →
      ∀ row ∈ rows, row.metadata.documentId.isSome ∧ row.metadata.chunkId.isSome)
    (c1 c2 : Nat) :
    (directPgvectorSearch env query k collection_ids tags c1).map Prod.fst =
      (directPgvectorSearch env query k collection_ids tags c2).map Prod.fst := by
  unfold directPgvectorSearch
  cases hemb : env.embed query with
  | error e => rfl
  | ok emb =>
    cases htab : env.pgTable with
    | error e => rfl
    | ok rows =>
      by_cases hk : k < 0
      · simp only [if_pos hk]
      · simp only [if_neg hk, Except.map]
        congr 1
        apply processWithUuids_fst_indep
        intro rc hrc u1 u2 u3 u4
        obtain ⟨row, hrow, hrceq⟩ := pgTopRows_mem hrc
        obtain ⟨h1, h2⟩ := hrows rows htab row hrow
        rw [hrceq]
        exact mkPgResponse_indep _ h1 h2 u1 u2 u3 u4

theorem collectResults_fst_indep (env : Env) (query : String) (k : Int)
    (fd : Option FilterDict) (stores : List (String × StoreData))
    (hdocs : ∀ sid sd, (sid, sd) ∈ stores → ∀ d ∈ searchStore sd query k fd,
      d.metadata.documentId.isSome ∧ d.metadata.chunkId.isSome)
    (c1 c2 : Nat) :
    (collectResults env query k fd c1 stores).1 =
      (collectResults env query k fd c2 stores).1 := by
  induction stores generalizing c1 c2 with
  | nil => rfl
  | cons s rest ih =>
    obtain ⟨sid, sd⟩ := s
    simp only [collectResults]
    congr 1
    · apply processWithUuids_fst_indep
      intro d hd u1 u2 u3 u4
      obtain ⟨h1, h2⟩ := hdocs sid sd (List.mem_cons_self _ _) d hd
      exact mkStoreResponse_indep sid sd.info h1 h2 u1 u2 u3 u4
    · exact ih (fun sid' sd' hm => hdocs sid' sd' (List.mem_cons_of_mem _ hm)) _ _

theorem searchFallback_fst_indep (env : Env) (query : String) (k : Int)
    (backend_ids collection_ids tags : Option (List String))
    (hdocs : ∀ sid sd, (sid, sd) ∈ env.vector_stores →
      ∀ d ∈ searchStore sd query k (buildFilterDict collection_ids tags),
      d.metadata.documentId.isSome ∧ d.metadata.chunkId.isSome)
    (c1 c2 : Nat) :
    (searchFallback env query k backend_ids collection_ids tags c1).map Prod.fst =
      (searchFallback env query k backend_ids collection_ids tags c2).map Prod.fst := by
  unfold searchFallback
  have hdocs' : ∀ sid sd, (sid, sd) ∈ storesToSearch env backend_ids →
      ∀ d ∈ searchStore sd query k (buildFilterDict collection_ids tags),
      d.metadata.documentId.isSome ∧ d.metadata.chunkId.isSome :=
    fun sid sd hm => hdocs sid sd (storesToSearch_subset env backend_ids _ hm)
  split
  · rfl
  · simp only [fallbackMerge, Except.map]
    rw [collectResults_fst_indep env query k (buildFilterDict collection_ids tags)
      (storesToSearch env backend_ids) hdocs' c1 c2]

theorem search_fst_indep (env : Env) (query : String) (k : Int)
    (backend_ids collection_ids tags : Option (List String))
    (hrows : ∀ rows, env.pgTable = .ok rows →
      ∀ row ∈ rows, row.metadata.documentId.isSome ∧ row.metadata.chunkId.isSome)
    (hdocs : ∀ sid sd, (sid, sd) ∈ env.vector_stores →
      ∀ d ∈ searchStore sd query k (buildFilterDict collection_ids tags),
      d.metadata.documentId.isSome ∧ d.metadata.chunkId.isSome)
    (c1 c2 : Nat) :
    (search env query k backend_ids collection_ids tags c1).map Prod.fst =
      (search env query k backend_ids collection_ids tags c2).map Prod.fst := by
  have hdirect := directPgvectorSearch_fst_indep env query k collection_ids tags hrows c1 c2
  by_cases hcond : (env.ENABLE_PGVECTOR
      && (!pyTruthy backend_ids || (backend_ids.getD []).contains "pgvector-1")) = true
  · cases hd1 : directPgvectorSearch env query k collection_ids tags c1 with
    | error e =>
      have hd2 : directPgvectorSearch env query k collection_ids tags c2 = .error e := by
        rw [hd1] at hdirect
        cases hd2' : directPgvectorSearch env query k collection_ids tags c2 with
        | error e2 =>
          rw [hd2'] at hdirect
          simp only [Except.map] at hdirect
          injection hdirect with he
          rw [he]
        | ok r =>
          rw [hd2'] at hdirect
          exact Except.noConfusion hdirect
      rw [search_eq_of_fast_error hcond hd1, search_eq_of_fast_error hcond hd2]
      exact searchFallback_fst_indep env query k backend_ids collection_ids tags hdocs c1 c2
    | ok r1 =>
      have hd2' : ∃ r2, directPgvectorSearch env query k collection_ids tags c2 = .ok r2 ∧
          r2.1 = r1.1 := by
        rw [hd1] at hdirect
        cases hd2'' : directPgvectorSearch env query k collection_ids tags c2 with
        | error e =>
          rw [hd2''] at hdirect
          exact Except.noConfusion hdirect
        | ok r2 =>
          rw [hd2''] at hdirect
          simp only [Except.map] at hdirect
          injection hdirect with he
          exact ⟨r2, rfl, he.symm⟩
      obtain ⟨r2, hd2, hfst⟩ := hd2'
      cases hre : r1.1.isEmpty with
      | true =>
        have hre2 : r2.1.isEmpty = true := by rw [hfst, hre]
        rw [search_eq_of_fast_empty hcond hd1 hre, search_eq_of_fast_empty hcond hd2 hre2]
        exact searchFallback_fst_indep env query k backend_ids collection_ids tags hdocs _ _
      | false =>
        have hre2 : r2.1.isEmpty = false := by rw [hfst, hre]
        rw [search_eq_of_fast_nonempty hcond hd1 hre, search_eq_of_fast_nonempty hcond hd2 hre2]
        simp only [Except.map]
        rw [hfst]
  · rw [search_eq_of_cond_false (Bool.of_not_eq_true hcond),
      search_eq_of_cond_false (Bool.of_not_eq_true hcond)]
    exact searchFallback_fst_indep env query k backend_ids collection_ids tags hdocs c1 c2

/-! ### C9 -/

/-- A stored row whose metadata has no documentId key. -/
def rowNoId : PgRow :=
  { content := "chunk without a stored documentId"
    metadata := { documentName := some "NoId"
                  chunkId := some "chunk-9" }
    embedding := [1, 0] }

/-- Environment holding the identifier-less row. -/
def envC9 : Env :=
  { ENABLE_PGVECTOR := true
    pgTable := .ok [rowNoId]
    cosDist := fun _ _ => 0
    embed := fun _ => .ok [1, 0]
    vector_stores := [] }

/-- C9 counterexample: repeating the identical search against unchanged
storage synthesizes a fresh documentId each time (uuid4 is fresh per call),
so the two result lists differ field for field. -/
theorem C9_counterexample_fresh_ids_differ :
    search envC9 "q" 5 none none none 0 =
      .ok ([mkPgResponse rowNoId (1 - (0 : ℚ)) (mkUuid 0) (mkUuid 1)], 2) ∧
    search envC9 "q" 5 none none none 2 =
      .ok ([mkPgResponse rowNoId (1 - (0 : ℚ)) (mkUuid 2) (mkUuid 3)], 4) ∧
    [mkPgResponse rowNoId (1 - (0 : ℚ)) (mkUuid 0) (mkUuid 1)] ≠
      [mkPgResponse rowNoId (1 - (0 : ℚ)) (mkUuid 2) (mkUuid 3)] := by
  refine ⟨rfl, rfl, fun h => ?_⟩
  exact absurd (congrArg (fun l => l.head?.map (fun r => r.metadata.documentId)) h)
    (by decide)

/-- C9 (amended): when every record the backends return carries its own
documentId and chunkId, the result list does not depend on the state of the
identifier supply, so repeating the identical search against unchanged
storage returns the same ordered list field for field; without stored
identifiers the lists differ exactly in the freshly synthesized ids. -/
theorem C9_amended_repeat_deterministic (env : Env) (query : String) (k : Int)
    (backend_ids collection_ids tags : Option (List String))
    (hrows : ∀ rows, env.pgTable = .ok rows →
      ∀ row ∈ rows, row.metadata.documentId.isSome ∧ row.metadata.chunkId.isSome)
    (hdocs : ∀ sid sd, (sid, sd) ∈ env.vector_stores →
      ∀ d ∈ searchStore sd query k (buildFilterDict collection_ids tags),
      d.metadata.documentId.isSome ∧ d.metadata.chunkId.isSome)
    (c1 c2 : Nat) :
    (search env query k backend_ids collection_ids tags c1).map Prod.fst =
      (search env query k backend_ids collection_ids tags c2).map Prod.fst :=
  search_fst_indep env query k backend_ids collection_ids tags hrows hdocs c1 c2

/-- C9 amended witness: the fully-identified single-row environment gives
the same list from any two supply states (here 0 and 2). -/
theorem C9_amended_repeat_deterministic_witness :
    (search envA "apollo" 5 none none none 0).map Prod.fst =
      (search envA "apollo" 5 none none none 2).map Prod.fst :=
  C9_amended_repeat_deterministic envA "apollo" 5 none none none
    (by
      intro rows hr
      injection hr with h
      rw [← h]
      intro row hrow
      rw [List.mem_singleton] at hrow
      rw [hrow]
      exact ⟨rfl, rfl⟩)
    (by
      intro sid sd hm
      exact absurd hm (List.not_mem_nil _))
    0 2

/-! ### C10 -/

/-- A stored row carrying a present but empty documentId. -/
def rowEmptyId : PgRow :=
  { content := "row with an empty documentId value"
    metadata := { documentId := some ""
                  chunkId := some "chunk-e" }
    embedding := [1, 0] }

/-- Environment holding the empty-identifier row. -/
def envC10 : Env :=
  { ENABLE_PGVECTOR := true
    pgTable := .ok [rowEmptyId]
    cosDist := fun _ _ => 0
    embed := fun _ => .ok [1, 0]
    vector_stores := [] }

/-- C10 counterexample: a present-but-empty stored documentId is passed
through unchanged, so the returned match carries an empty documentId and
nothing is synthesized for it. -/
theorem C10_counterexample_empty_id_passthrough :
    search envC10 "q" 5 none none none 0 =
      .ok ([mkPgResponse rowEmptyId (1 - (0 : ℚ)) (mkUuid 0) (mkUuid 1)], 2) ∧
    (mkPgResponse rowEmptyId (1 - (0 : ℚ)) (mkUuid 0) (mkUuid 1)).metadata.documentId = "" :=
  ⟨rfl, rfl⟩

/-- C10 (amended): documentId and chunkId are taken from the record when
the key is present (even when its value is empty); when the key is absent
the i-th processed record receives the two fresh identifiers drawn at
supply positions c+2i and c+2i+1, which are non-empty and pairwise distinct
across all synthesis events of the search (the fallback loop is the same
processor run over the store-tagged concatenation, so one numbering covers
every collected match; the final sort only permutes them). -/
theorem C10_amended_id_synthesis :
    (∀ (m : RowMeta) (u1 u2 : String),
       (∀ s, m.documentId = some s → (buildDocMetadata m u1 u2).documentId = s) ∧
       (m.documentId = none → (buildDocMetadata m u1 u2).documentId = u1) ∧
       (∀ s, m.chunkId = some s → (buildDocMetadata m u1 u2).chunkId = s) ∧
       (m.chunkId = none → (buildDocMetadata m u1 u2).chunkId = u2)) ∧
    (∀ (f : (String × StoreInfo × GenericDoc) → String → String → DocumentResponse)
       (c : Nat) (xs : List (String × StoreInfo × GenericDoc)) (i : Nat),
       (processWithUuids f c xs).1.get? i =
         (xs.get? i).map (fun x => f x (mkUuid (c + 2 * i)) (mkUuid (c + 2 * i + 1)))) ∧
    (∀ (f : (PgRow × ℚ) → String → String → DocumentResponse)
       (c : Nat) (xs : List (PgRow × ℚ)) (i : Nat),
       (processWithUuids f c xs).1.get? i =
         (xs.get? i).map (fun x => f x (mkUuid (c + 2 * i)) (mkUuid (c + 2 * i + 1)))) ∧
    (∀ n, mkUuid n ≠ "") ∧
    Function.Injective mkUuid ∧
    (∀ c i j, mkUuid (c + 2 * i) ≠ mkUuid (c + 2 * j + 1) ∧
       (i ≠ j → mkUuid (c + 2 * i) ≠ mkUuid (c + 2 * j) ∧
                mkUuid (c + 2 * i + 1) ≠ mkUuid (c + 2 * j + 1))) ∧
    (∀ (env : Env) (query : String) (k : Int) (fd : Option FilterDict)
       (c : Nat) (stores : List (String × StoreData)),
       collectResults env query k fd c stores =
         processWithUuids (fun (t : String × StoreInfo × GenericDoc) u1 u2 =>
           mkStoreResponse t.1 t.2.1 t.2.2 u1 u2) c
           ((stores.map (fun p => (searchStore p.2 query k fd).map
               (fun d => (p.1, p.2.info, d)))).flatten)) := by
  refine ⟨?_, ?_, ?_, mkUuid_ne_empty, mkUuid_injective, ?_, ?_⟩
  · intro m u1 u2
    refine ⟨?_, ?_, ?_, ?_⟩
    · intro s hs; simp [buildDocMetadata, hs]
    · intro hs; simp [buildDocMetadata, hs]
    · intro s hs; simp [buildDocMetadata, hs]
    · intro hs; simp [buildDocMetadata, hs]
  · exact fun f c xs i => processWithUuids_get? f c xs i
  · exact fun f c xs i => processWithUuids_get? f c xs i
  · intro c i j
    constructor
    · intro h
      have := mkUuid_injective h
      omega
    · intro hij
      constructor
      · intro h
        have := mkUuid_injective h
        omega
      · intro h
        have := mkUuid_injective h
        omega
  · exact fun env query k fd c stores => collectResults_eq_process env query k fd c stores

/-- C10 amended witness: an empty stored id is passed through; two distinct
synthesis events give distinct fresh identifiers. -/
theorem C10_amended_id_synthesis_witness :
    (buildDocMetadata { documentId := some "" } "a" "b").documentId = "" ∧
    mkUuid (0 + 2 * 0) ≠ mkUuid (0 + 2 * 1) := by
  constructor
  · exact (C10_amended_id_synthesis.1 { documentId := some "" } "a" "b").1 "" rfl
  · exact ((C10_amended_id_synthesis.2.2.2.2.2.1 0 0 1).2 (by decide)).1
